import Mathlib

/-!
Verification development for the attachment-conversion output module
src/AAVAoutput.py of the AAVA repository.

The module is a straight-line Python script that binds module-level
constants: a list `test_cases` of three fully written-out test-case
records (lines 11-62), the string `json_output` produced by
`json.dumps` on the single-key document holding that list (line 64,
with `indent=2`), and a list `error_log` holding one entry with the
keys `attachment` and `issue` (lines 69-74).  No statement of the
module reads attachment bytes or any other input.  Python dicts are
ordered, so records are embedded as structures (fixed field set) or as
ordered key-value lists where the exact key set matters.
-/

/-- JSON values as the `json` module of Python represents the data this
program serializes: strings, arrays and objects with ordered fields.
The program's data contains no numbers, booleans or nulls. -/
inductive Json where
  | str (s : String)
  | arr (elems : List Json)
  | obj (fields : List (String × Json))

/-- Hexadecimal digit character, lower case, as Python's `json` writes
in a `\u` escape. -/
def hexDigit (n : Nat) : Char :=
  if n < 10 then Char.ofNat (48 + n) else Char.ofNat (87 + n)

/-- Four-digit hexadecimal rendering of a code point below 0x10000. -/
def hex4 (n : Nat) : String :=
  String.mk [hexDigit (n / 4096 % 16), hexDigit (n / 256 % 16),
             hexDigit (n / 16 % 16), hexDigit (n % 16)]

/-- Escape one character exactly as Python's `json.dumps` does with its
default `ensure_ascii=True`: the two-character escapes for quote,
backslash and the common control characters, `\u` escapes for the other
control characters and for all non-ASCII code points (the program's data
stays below 0x10000, the range this covers), and the character itself
otherwise. -/
def escapeChar (c : Char) : String :=
  if c = '\"' then "\\\""
  else if c = '\\' then "\\\\"
  else if c = '\n' then "\\n"
  else if c = '\t' then "\\t"
  else if c = '\r' then "\\r"
  else if c.toNat < 32 ∨ 127 < c.toNat then "\\u" ++ hex4 c.toNat
  else String.singleton c

/-- A JSON string literal: the escaped text between double quotes. -/
def quoteStr (s : String) : String :=
  "\"" ++ String.join (s.toList.map escapeChar) ++ "\""

/-- Indentation: `n` spaces. -/
def indentStr (n : Nat) : String :=
  String.mk (List.replicate n ' ')

mutual

/-- Serialization of a JSON value as `json.dumps(v, indent=2)` renders
it when written at indentation level `ind`: containers open on the
current line, put each item on its own line indented two further
columns, separate items with a comma, and close on a fresh line at the
opening indentation.  Empty containers print on one line. -/
def dumpVal : Nat → Json → String
  | _, Json.str s => quoteStr s
  | _, Json.arr [] => "[]"
  | ind, Json.arr (x :: xs) =>
      "[\n" ++ dumpArr (ind + 2) x xs ++ "\n" ++ indentStr ind ++ "]"
  | _, Json.obj [] => "\x7b\x7d"
  | ind, Json.obj (f :: fs) =>
      "\x7b\n" ++ dumpObj (ind + 2) f fs ++ "\n" ++ indentStr ind ++ "\x7d"
termination_by _ j => sizeOf j

/-- The comma-and-newline separated items of a non-empty JSON array. -/
def dumpArr : Nat → Json → List Json → String
  | ind, x, [] => indentStr ind ++ dumpVal ind x
  | ind, x, y :: ys =>
      indentStr ind ++ dumpVal ind x ++ ",\n" ++ dumpArr ind y ys
termination_by _ x xs => sizeOf x + sizeOf xs

/-- The comma-and-newline separated fields of a non-empty JSON object. -/
def dumpObj : Nat → String × Json → List (String × Json) → String
  | ind, (k, v), [] => indentStr ind ++ quoteStr k ++ ": " ++ dumpVal ind v
  | ind, (k, v), g :: gs =>
      indentStr ind ++ quoteStr k ++ ": " ++ dumpVal ind v ++ ",\n" ++
        dumpObj ind g gs
termination_by _ f fs => sizeOf f + sizeOf fs

end

/-- The `metadata` sub-dictionary of one record of `test_cases`
(src/AAVAoutput.py lines 22-26, 38-42 and 56-60): three string-valued
keys in the written order priority, created_by, created_date. -/
structure Metadata where
  priority : String
  created_by : String
  created_date : String
deriving DecidableEq

/-- One record of the `test_cases` list (src/AAVAoutput.py lines
12-27, 28-43 and 44-61): the six keys of each literal dict, in the
written order. -/
structure TestCase where
  id : String
  title : String
  steps : List String
  expected_result : String
  preconditions : String
  metadata : Metadata
deriving DecidableEq

/-- The first literal record of `test_cases` (lines 12-27). -/
def tc1 : TestCase :=
  ⟨"TC-001",
   "Verify User Login with Valid Credentials",
   ["Navigate to the application login page",
    "Enter valid username and password",
    "Click on the 'Login' button"],
   "User is successfully logged in and redirected to the dashboard.",
   "User is registered and has valid credentials.",
   ⟨"High", "OMKAR", "2025-12-19"⟩⟩

/-- The second literal record of `test_cases` (lines 28-43). -/
def tc2 : TestCase :=
  ⟨"TC-002",
   "Verify Login Fails with Invalid Credentials",
   ["Navigate to the application login page",
    "Enter invalid username and/or password",
    "Click on the 'Login' button"],
   "User is shown an error message and remains on the login page.",
   "User does not have valid credentials.",
   ⟨"High", "OMKAR", "2025-12-19"⟩⟩

/-- The third literal record of `test_cases` (lines 44-61). -/
def tc3 : TestCase :=
  ⟨"TC-003",
   "Verify Password Reset Functionality",
   ["Navigate to the login page",
    "Click on 'Forgot Password?' link",
    "Enter registered email address",
    "Click 'Reset Password' button",
    "Check email for reset instructions"],
   "Password reset email is sent to the registered email address.",
   "User has a registered email address.",
   ⟨"Medium", "OMKAR", "2025-12-19"⟩⟩

/-- The module-level constant `test_cases` (src/AAVAoutput.py lines
11-62): the literal list of the three records above. -/
def test_cases : List TestCase := [tc1, tc2, tc3]

/-- JSON form of a `metadata` dict, keys in insertion order. -/
def Metadata.toJson (m : Metadata) : Json :=
  Json.obj [("priority", Json.str m.priority),
            ("created_by", Json.str m.created_by),
            ("created_date", Json.str m.created_date)]

/-- JSON form of one test-case dict, keys in insertion order. -/
def TestCase.toJson (tc : TestCase) : Json :=
  Json.obj [("id", Json.str tc.id),
            ("title", Json.str tc.title),
            ("steps", Json.arr (tc.steps.map Json.str)),
            ("expected_result", Json.str tc.expected_result),
            ("preconditions", Json.str tc.preconditions),
            ("metadata", tc.metadata.toJson)]

/-- The document passed to `json.dumps` on line 64 for a given
test-case list: a one-key object holding the list under the key
test_cases.  Line 64 passes the module constant; `emit` keeps the list
a parameter so re-running the serialization on a list can be stated. -/
def docValue (tcs : List TestCase) : Json :=
  Json.obj [("test_cases", Json.arr (tcs.map TestCase.toJson))]

/-- The JSON document whose serialization line 64 binds: the one-key
object over the module constant `test_cases`. -/
def json_output_value : Json := docValue test_cases

/-- The Emitter of the module, line 64: `json.dumps` of the one-key
document over a test-case list, with `indent=2`.  It takes nothing but
the list; in particular `error_log` is not an argument and is not
serialized into the document. -/
def emit (tcs : List TestCase) : String := dumpVal 0 (docValue tcs)

/-- The module-level constant `json_output` (line 64). -/
def json_output : String := emit test_cases

/-- An entry of `error_log`: a Python dict with string values, embedded
as its ordered key-value list. -/
abbrev ErrEntry := List (String × String)

/-- The module-level constant `error_log` (src/AAVAoutput.py lines
69-74): a one-element list whose entry has exactly the keys attachment
and issue. -/
def error_log : List ErrEntry :=
  [[("attachment", "Manual_Test_Cases.xlsx"),
    ("issue", "None. All test cases parsed successfully.")]]

/-- First value bound to a key in an ordered key-value list, as Python
dict lookup observes it. -/
def lookupKey (e : List (String × String)) (k : String) : Option String :=
  (e.find? (fun p => p.1 == k)).map (fun p => p.2)

/-- The keys of an ordered key-value list, in order. -/
def keysOf (e : List (String × String)) : List String :=
  e.map (fun p => p.1)

/-- The value of a field of a JSON object (none on non-objects and
absent keys). -/
def jsonLookup (j : Json) (k : String) : Option Json :=
  match j with
  | Json.obj fields => (fields.find? (fun p => p.1 == k)).map (fun p => p.2)
  | _ => none

/-- The field names of a JSON object, in order (empty on non-objects). -/
def jsonKeys (j : Json) : List String :=
  match j with
  | Json.obj fields => fields.map (fun p => p.1)
  | _ => []

/-- A raw source row of a spreadsheet attachment, as the spec's data
model presents one to the pipeline: an ordered mapping from column name
to cell text.  The module under verification never inspects one. -/
abbrev RawRow := List (String × String)

/-- A spreadsheet attachment presented as its ordered rows. -/
abbrev Attachment := List RawRow

/-- The module-level bindings one execution of src/AAVAoutput.py
produces: the three constants relevant to the emitted output. -/
structure RunOutput where
  test_cases : List TestCase
  error_log : List ErrEntry
  json_output : String

/-- One conversion run: executing the module with a given attachment
present.  No statement of src/AAVAoutput.py reads the attachment (or
any input at all), so the bindings an execution produces are the
module's constants whatever the attachment holds. -/
def run (_a : Attachment) : RunOutput :=
  ⟨test_cases, error_log, json_output⟩

/-- A one-row attachment whose row carries an unrecognized priority
value, as in Scenario C of the spec. -/
def scenarioC : Attachment :=
  [[("id", "TC-100"), ("title", "Urgent case"), ("steps", "1. do it"),
    ("expected_result", "works"), ("priority", "urgent")]]

/-- A two-row attachment whose rows share one id, as in Scenario D of
the spec. -/
def scenarioD : Attachment :=
  [[("id", "TC-001"), ("title", "first"), ("steps", "1. a"),
    ("expected_result", "ok")],
   [("id", "TC-001"), ("title", "second"), ("steps", "1. b"),
    ("expected_result", "ok")]]

/-- Claim C1, counterexample: the claim requires every run's summary to
satisfy the accounting identity, but no run emits a summary at all: the
document serialized by line 64 has no summary field, and a run over an
attachment with one non-blank source row produces the very same output
as a run over the empty attachment, so no row produces any outcome. -/
theorem c1_summary_missing :
    jsonLookup json_output_value "summary" = none ∧
    (run [[("id", "R-1"), ("title", "t"), ("steps", "s"),
      ("expected_result", "e")]]).json_output = (run []).json_output :=
  ⟨rfl, rfl⟩

/-- Claim C1, amended: the module emits no summary object - the
document's only section is test_cases - and every conversion run binds
the same constants, three test cases and one error-log entry, however
many source rows the attachment holds, so no per-row accounting
identity is computed or emitted. -/
theorem c1_no_summary_constant_output :
    (∀ a : Attachment,
      (run a).test_cases = test_cases ∧ (run a).error_log = error_log) ∧
    jsonKeys json_output_value = ["test_cases"] ∧
    test_cases.length = 3 ∧ error_log.length = 1 :=
  ⟨fun _ => ⟨rfl, rfl⟩, rfl, rfl, rfl⟩

/-- Claim C2: every record of the emitted test_cases list has a
non-empty id, a non-empty title, at least one step and a non-empty
expected_result; equivalently, no record failing one of the required
fields is an element of test_cases. -/
theorem c2_testcases_required_fields :
    ∀ tc ∈ test_cases,
      tc.id ≠ "" ∧ tc.title ≠ "" ∧ 1 ≤ tc.steps.length ∧
        tc.expected_result ≠ "" := by
  intro tc htc
  simp only [test_cases, List.mem_cons, List.not_mem_nil, or_false] at htc
  rcases htc with h | h | h <;> subst h <;> decide

/-- Claim C2, witness: the first emitted record satisfies the
required-field invariant. -/
theorem c2_testcases_required_fields_witness :
    tc1.id ≠ "" ∧ tc1.title ≠ "" ∧ 1 ≤ tc1.steps.length ∧
      tc1.expected_result ≠ "" :=
  c2_testcases_required_fields tc1 (by simp [test_cases])

/-- Claim C3, counterexample: on the Scenario D attachment, whose two
rows share the id TC-001, the run's error log is the unchanged constant
single entry, and no entry of it carries a reason at all, so no error
anomaly mentioning the duplicate is recorded for the second
occurrence. -/
theorem c3_scenarioD_no_duplicate_anomaly :
    (run scenarioD).error_log.filter
      (fun e => (lookupKey e "reason").isSome) = [] ∧
    (run scenarioD).error_log = error_log :=
  ⟨rfl, rfl⟩

/-- Claim C3, amended: the id values of the emitted test_cases list are
pairwise distinct because the list is a fixed constant with the three
distinct ids TC-001, TC-002, TC-003; the code performs no duplicate
detection, and no run ever records an anomaly carrying a reason. -/
theorem c3_ids_pairwise_distinct :
    (test_cases.map (fun tc => tc.id)).Nodup ∧
    ∀ a : Attachment,
      (run a).error_log.filter (fun e => (lookupKey e "reason").isSome) = [] :=
  ⟨by decide, fun _ => rfl⟩

/-- Claim C4, counterexample: the document serialized on line 64 has
test_cases as its only section; it contains neither an error_log
section nor a summary object. -/
theorem c4_document_sections_missing :
    jsonKeys json_output_value = ["test_cases"] ∧
    jsonLookup json_output_value "error_log" = none ∧
    jsonLookup json_output_value "summary" = none :=
  ⟨rfl, rfl, rfl⟩

/-- Claim C4, amended: the final emitted JSON document contains exactly
one section, the test_cases array; the error_log constant is a separate
module-level value that is never serialized into the document, and no
summary object with total_rows_seen, accepted_count, error_count,
warning_count or success_rate exists anywhere in the output. -/
theorem c4_document_single_section :
    json_output = dumpVal 0 json_output_value ∧
    jsonLookup json_output_value "test_cases" =
      some (Json.arr (test_cases.map TestCase.toJson)) ∧
    jsonKeys json_output_value = ["test_cases"] :=
  ⟨rfl, rfl, rfl⟩

/-- Claim C5, counterexample: the single entry of the emitted error log
has no severity, no source_reference and no reason value, against the
claim that every entry carries all three. -/
theorem c5_entry_without_schema_fields :
    error_log.map (fun e => lookupKey e "severity") = [none] ∧
    error_log.map (fun e => lookupKey e "source_reference") = [none] ∧
    error_log.map (fun e => lookupKey e "reason") = [none] :=
  ⟨rfl, rfl, rfl⟩

/-- Claim C5, amended: every entry of the emitted error log has exactly
the keys attachment and issue, in that order, and carries no
source_reference, severity or reason field. -/
theorem c5_entry_actual_keys :
    ∀ e ∈ error_log,
      keysOf e = ["attachment", "issue"] ∧
      lookupKey e "severity" = none ∧
      lookupKey e "source_reference" = none ∧
      lookupKey e "reason" = none := by
  intro e he
  simp only [error_log, List.mem_cons, List.not_mem_nil, or_false] at he
  subst he
  exact ⟨rfl, rfl, rfl, rfl⟩

/-- Claim C5, witness: the one concrete entry of the error log has the
amended shape. -/
theorem c5_entry_actual_keys_witness :
    keysOf [("attachment", "Manual_Test_Cases.xlsx"),
      ("issue", "None. All test cases parsed successfully.")] =
        ["attachment", "issue"] ∧
    lookupKey [("attachment", "Manual_Test_Cases.xlsx"),
      ("issue", "None. All test cases parsed successfully.")] "severity" =
        none ∧
    lookupKey [("attachment", "Manual_Test_Cases.xlsx"),
      ("issue", "None. All test cases parsed successfully.")]
        "source_reference" = none ∧
    lookupKey [("attachment", "Manual_Test_Cases.xlsx"),
      ("issue", "None. All test cases parsed successfully.")] "reason" =
        none :=
  c5_entry_actual_keys _ (by simp [error_log])

/-- Claim C6: the Emitter of line 64 is a pure function of the accepted
test-case list, so any two emissions over the same list under the same
serialization settings produce byte-identical strings. -/
theorem c6_emit_deterministic :
    ∀ (tcs : List TestCase) (out1 out2 : String),
      out1 = emit tcs → out2 = emit tcs → out1 = out2 := by
  intro tcs out1 out2 h1 h2
  rw [h1, h2]

/-- Claim C6, witness: the module's bound json_output and an
independently written serialization of the same list are the two
emissions over the concrete constant list, and they coincide. -/
theorem c6_emit_deterministic_witness :
    json_output = dumpVal 0 (docValue test_cases) :=
  c6_emit_deterministic test_cases json_output
    (dumpVal 0 (docValue test_cases)) rfl rfl

/-- Claim C7, counterexample: a run over the empty attachment still
yields the constant three test cases and the constant one-element error
log, and its document has no summary, hence no success_rate field equal
to anything. -/
theorem c7_empty_attachment_not_empty_output :
    (run []).test_cases.length = 3 ∧
    (run []).error_log.length = 1 ∧
    jsonLookup json_output_value "summary" = none :=
  ⟨rfl, rfl, rfl⟩

/-- Claim C7, amended: no summary and no success_rate are computed; a
run over the empty attachment produces exactly the same constant output
as every other run - the fixed test_cases list, the fixed one-entry
error_log and the fixed serialized document, whose only section is
test_cases. -/
theorem c7_empty_attachment_constant :
    (run []).test_cases = test_cases ∧
    (run []).error_log = error_log ∧
    (run []).json_output = json_output ∧
    jsonKeys json_output_value = ["test_cases"] :=
  ⟨rfl, rfl, rfl, rfl⟩

/-- Claim C8, counterexample: on the Scenario C attachment, whose one
row carries the unrecognized priority urgent, the run records zero
warning entries - no entry of its error log has severity warning, or
any severity - and emits no test case for the row at all, against the
claimed coerced record and exactly one warning anomaly. -/
theorem c8_urgent_priority_no_warning :
    ((run scenarioC).error_log.filter
      (fun e => lookupKey e "severity" == some "warning")).length = 0 ∧
    ((run scenarioC).test_cases.filter
      (fun tc => tc.id == "TC-100")).length = 0 :=
  ⟨rfl, rfl⟩

/-- Claim C8, amended: the code performs no priority coercion and
records no warnings - no run's error log contains an entry with
severity warning - and the emitted test_cases are the fixed constant
list whose priority values are literally High, High and Medium,
unaffected by any row of the attachment. -/
theorem c8_no_priority_coercion :
    (∀ a : Attachment,
      (run a).error_log.filter
        (fun e => lookupKey e "severity" == some "warning") = []) ∧
    test_cases.map (fun tc => tc.metadata.priority) =
      ["High", "High", "Medium"] :=
  ⟨fun _ => rfl, rfl⟩

/-- Claim C9: the emitted test_cases value is the fixed module-level
constant of exactly three records with ids TC-001, TC-002 and TC-003,
and since no operation of the module consumes attachment bytes, any two
runs over any attachments produce identical bindings; in particular
their serialized json_output strings are byte-identical. -/
theorem c9_output_independent_of_attachment :
    (∀ a1 a2 : Attachment, run a1 = run a2) ∧
    test_cases.length = 3 ∧
    test_cases.map (fun tc => tc.id) = ["TC-001", "TC-002", "TC-003"] ∧
    ∀ a1 a2 : Attachment, (run a1).json_output = (run a2).json_output :=
  ⟨fun _ _ => rfl, rfl, rfl, fun _ _ => rfl⟩

/-- Claim C10: the error_log value every run binds is the fixed
one-element list whose single entry has exactly the keys attachment and
issue - no severity and no source_reference - and whose issue value
states that no issues occurred; in particular the error log is never
empty. -/
theorem c10_error_log_constant_schema :
    (∀ a : Attachment, (run a).error_log = error_log) ∧
    error_log.length = 1 ∧
    error_log.map keysOf = [["attachment", "issue"]] ∧
    error_log.map (fun e => lookupKey e "issue") =
      [some "None. All test cases parsed successfully."] ∧
    error_log.map (fun e => lookupKey e "severity") = [none] ∧
    error_log.map (fun e => lookupKey e "source_reference") = [none] ∧
    error_log ≠ [] :=
  ⟨fun _ => rfl, rfl, rfl, rfl, rfl, rfl, by simp [error_log]⟩
